import Mathlib

/-!
Verification development for the AnkiBrain ChatAI subprocess.

The Python sources embedded here are:
  * `ChatAI/LLMProvider.py`            — provider enum, provider classes, factory;
  * `ChatAI/ChatAIWithoutDocuments.py` — the without-documents conversation wrapper;
  * `ChatAI/__init__.py`               — `module_return` / `module_error`,
    `check_credentials`, `handle_module_input` and the stdin line loop.

External collaborators that the dispatcher imports but whose sources are not part
of the repository snapshot (`InterprocessCommand`, `ChatAIWithDocuments`,
`ChatInterface`, langchain's `ConversationChain` / `ConversationBufferMemory`,
the OpenAI cost callback and the network itself) are modelled from the
specification; each such definition carries a doc comment saying so.  Network
calls are abstracted by an `Oracle` record of response/cost functions, so every
definition stays executable.
-/

namespace AnkiBrain

/-- The process environment: a total map from variable names to an optional
value, mirroring `os.getenv` returning `None` for unset variables. -/
def Env : Type := String → Option String

/-- A role in a conversation turn (the memory buffer holds (role, text) pairs,
spec section 3, Conversation State). -/
inductive Role
  | human
  | ai
deriving DecidableEq

/-- One turn of conversation history. -/
structure Turn where
  role : Role
  text : String
deriving DecidableEq

/-! ## LLMProvider.py -/

/-- `LLMProviderType` enum from `LLMProvider.py` (members OPENAI = "openai",
GITHUB_COPILOT = "github_copilot"). -/
inductive LLMProviderType
  | OPENAI
  | GITHUB_COPILOT
deriving DecidableEq

/-- The string value of each `LLMProviderType` member. -/
def LLMProviderType.value : LLMProviderType → String
  | .OPENAI => "openai"
  | .GITHUB_COPILOT => "github_copilot"

/-- Models the Python enum value constructor `LLMProviderType(s)`:
`some` on a member value, `none` standing for the raised `ValueError`. -/
def LLMProviderType.ofValue? (s : String) : Option LLMProviderType :=
  if s = "openai" then some .OPENAI
  else if s = "github_copilot" then some .GITHUB_COPILOT
  else none

/-- The configured langchain `ChatOpenAI` handle as built by the two
`get_llm` implementations: constructor keyword arguments recorded as data.
`headers` models the `model_kwargs` headers dict. -/
structure ChatOpenAI where
  temperature : Rat
  model_name : String
  openai_api_key : Option String
  openai_api_base : Option String
  headers : List (String × String)
deriving DecidableEq

/-- A provider instance.  The Python code has an abstract base class with two
subclasses (`OpenAIProvider`, `GitHubCopilotProvider`); both carry only
`model_name` and `temperature`, so the hierarchy is embedded as one record
tagged with its `LLMProviderType`. -/
structure LLMProvider where
  ptype : LLMProviderType
  model_name : String
  temperature : Rat
deriving DecidableEq

/-- `get_api_key_env_var` of each provider subclass. -/
def LLMProvider.get_api_key_env_var (p : LLMProvider) : String :=
  match p.ptype with
  | .OPENAI => "OPENAI_API_KEY"
  | .GITHUB_COPILOT => "GITHUB_COPILOT_TOKEN"

/-- `validate_credentials` of each provider subclass:
`os.getenv('OPENAI_API_KEY') is not None` resp.
`os.getenv('GITHUB_COPILOT_TOKEN') is not None`. -/
def LLMProvider.validate_credentials (p : LLMProvider) (env : Env) : Bool :=
  match p.ptype with
  | .OPENAI => (env "OPENAI_API_KEY").isSome
  | .GITHUB_COPILOT => (env "GITHUB_COPILOT_TOKEN").isSome

/-- `get_llm` of each provider subclass.  `OpenAIProvider.get_llm` passes only
temperature and model name; `GitHubCopilotProvider.get_llm` additionally passes
the token read from the environment, the fixed base URL and the two fixed
client-identification headers. -/
def LLMProvider.get_llm (p : LLMProvider) (env : Env) : ChatOpenAI :=
  match p.ptype with
  | .OPENAI =>
      { temperature := p.temperature
        model_name := p.model_name
        openai_api_key := none
        openai_api_base := none
        headers := [] }
  | .GITHUB_COPILOT =>
      { temperature := p.temperature
        model_name := p.model_name
        openai_api_key := env "GITHUB_COPILOT_TOKEN"
        openai_api_base := some "https://api.githubcopilot.com"
        headers := [("Editor-Version", "vscode/1.95.0"),
                    ("Editor-Plugin-Version", "copilot-chat/0.22.4")] }

/-- `GitHubCopilotProvider.DEFAULT_MODEL`. -/
def GitHubCopilotProvider.DEFAULT_MODEL : String := "gpt-4o"

/-- `GitHubCopilotProvider.AVAILABLE_MODELS`. -/
def GitHubCopilotProvider.AVAILABLE_MODELS : List String :=
  ["gpt-4o", "gpt-4", "gpt-3.5-turbo", "o1-preview", "o1-mini", "claude-3.5-sonnet"]

/-- Python truthiness fallback `model_name or default` on an
`Optional[str]`: `None` and the empty string select the default. -/
def pyOrStr (model_name : Option String) (default : String) : String :=
  match model_name with
  | none => default
  | some s => if s = "" then default else s

/-- `LLMProviderFactory.create_provider`.  The Python `else` branch raising
`ValueError` is unreachable because the embedded enum is closed. -/
def LLMProviderFactory.create_provider (provider_type : LLMProviderType)
    (model_name : Option String) (temperature : Rat) : LLMProvider :=
  match provider_type with
  | .OPENAI =>
      { ptype := .OPENAI
        model_name := pyOrStr model_name "gpt-3.5-turbo"
        temperature := temperature }
  | .GITHUB_COPILOT =>
      { ptype := .GITHUB_COPILOT
        model_name := pyOrStr model_name GitHubCopilotProvider.DEFAULT_MODEL
        temperature := temperature }

/-- `LLMProviderFactory.get_available_models`. -/
def LLMProviderFactory.get_available_models (provider_type : LLMProviderType) : List String :=
  match provider_type with
  | .OPENAI => ["gpt-4", "gpt-4-turbo-preview", "gpt-3.5-turbo", "gpt-3.5-turbo-16k"]
  | .GITHUB_COPILOT => GitHubCopilotProvider.AVAILABLE_MODELS

/-! ## Settings (`settings.json`) -/

/-- The parsed `settings.json` contents as the code reads them: each field is
optional, mirroring `data.get(key, default)` on the loaded JSON dict. -/
structure Settings where
  temperature : Option Rat
  llmModel : Option String
  llmProvider : Option String
deriving DecidableEq

/-- Provider-type selection performed inside `ChatAIWithoutDocuments.__init__`
(lines 32-36): `data.get('llmProvider', 'openai')` fed to `LLMProviderType(...)`
with the `ValueError` handler falling back to `OPENAI`. -/
def ChatAIWithoutDocuments.selected_provider_type (settings : Settings) : LLMProviderType :=
  (LLMProviderType.ofValue? (settings.llmProvider.getD "openai")).getD LLMProviderType.OPENAI

/-- Provider-type selection performed inside `check_credentials`
(`__init__.py` lines 52-59), textually the same fallback logic. -/
def check_credentials_provider_type (settings : Settings) : LLMProviderType :=
  (LLMProviderType.ofValue? (settings.llmProvider.getD "openai")).getD LLMProviderType.OPENAI

/-- The without-documents conversation wrapper: the configured chat handle plus
the `ConversationBufferMemory` contents.  Memory semantics (append the user
turn, call the model with full history, append the reply) are modelled from
spec section 4.2 since langchain is external. -/
structure ChatAIWithoutDocuments where
  llm : ChatOpenAI
  memory : List Turn
deriving DecidableEq

/-- `ChatAIWithoutDocuments.__init__`: reads temperature, model name and
provider from settings (with defaults), builds the provider through the
factory, takes its `get_llm` handle and a fresh empty memory buffer. -/
def ChatAIWithoutDocuments.init (settings : Settings) (env : Env) : ChatAIWithoutDocuments :=
  let temperature := settings.temperature.getD 0
  let model_name := settings.llmModel.getD "gpt-3.5-turbo"
  let provider := LLMProviderFactory.create_provider
    (ChatAIWithoutDocuments.selected_provider_type settings) (some model_name) temperature
  { llm := provider.get_llm env, memory := [] }

/-- `ChatAIWithoutDocuments.clear_memory`: `self.memory.clear()` empties the
buffer in place. -/
def ChatAIWithoutDocuments.clear_memory (c : ChatAIWithoutDocuments) : ChatAIWithoutDocuments :=
  { c with memory := [] }

/-! ## JSON values and the line protocol -/

/-- A parsed JSON value, the shape `json.loads` produces: objects are ordered
key-value lists. -/
inductive JValue
  | null
  | bool (b : Bool)
  | num (q : Rat)
  | str (s : String)
  | arr (elems : List JValue)
  | obj (entries : List (String × JValue))

/-- Dictionary lookup `d[k]` / `d.get(k)` on a parsed JSON object, first
match wins (the claims never exercise duplicate keys). -/
def jlookup (key : String) : List (String × JValue) → Option JValue
  | [] => none
  | (k, v) :: rest => if k = key then some v else jlookup key rest

/-- Python truthiness of a JSON value (`not input_data`, `if use_documents:`). -/
def JValue.pyTruthy : JValue → Bool
  | .null => false
  | .bool b => b
  | .num q => if q = 0 then false else true
  | .str s => if s = "" then false else true
  | .arr xs => !xs.isEmpty
  | .obj kvs => !kvs.isEmpty

/-- Decimal-ish rendering of a rational, standing in for Python number
formatting inside `str(...)` messages; no theorem relies on the exact text. -/
def ratStr (q : Rat) : String :=
  if q.den = 1 then toString q.num else toString q.num ++ "/" ++ toString q.den

mutual

/-- Rendering of a JSON value, standing in for Python `str(...)` in the
malformed-input error messages; no theorem relies on the exact text. -/
def jshow : JValue → String
  | .null => "None"
  | .bool true => "True"
  | .bool false => "False"
  | .num q => ratStr q
  | .str s => s
  | .arr xs => "[" ++ jshowList xs ++ "]"
  | .obj kvs => "\x7b" ++ jshowObj kvs ++ "\x7d"

/-- Comma-separated rendering of a JSON array body. -/
def jshowList : List JValue → String
  | [] => ""
  | [x] => jshow x
  | x :: xs => jshow x ++ ", " ++ jshowList xs

/-- Comma-separated rendering of a JSON object body. -/
def jshowObj : List (String × JValue) → String
  | [] => ""
  | [(k, v)] => k ++ ": " ++ jshow v
  | (k, v) :: kvs => k ++ ": " ++ jshow v ++ ", " ++ jshowObj kvs

end

/-- A single-quote character, used to render Python `str(KeyError(k))`. -/
def sq : String := String.singleton (Char.ofNat 39)

/-- `str(KeyError(k))` is the key wrapped in single quotes; this is the text
`module_error` reports when a dict lookup or the enum lookup `IC[cmd]` fails. -/
def keyErrorMsg (k : String) : String := sq ++ k ++ sq

/-- Modelled from the spec: the `InterprocessCommand` enum (imported as `IC`)
is not in the repository snapshot; its member names are the command and
response tags listed in spec section 6. -/
inductive IC
  | ASK_CONVERSATION_DOCUMENTS
  | DID_ASK_CONVERSATION_DOCUMENTS
  | ASK_CONVERSATION_NO_DOCUMENTS
  | DID_ASK_CONVERSATION_NO_DOCUMENTS
  | EXPLAIN_TOPIC
  | DID_EXPLAIN_TOPIC
  | GENERATE_CARDS
  | DID_GENERATE_CARDS
  | CLEAR_CONVERSATION
  | DID_CLEAR_CONVERSATION
  | ADD_DOCUMENTS
  | DID_ADD_DOCUMENTS
  | DELETE_ALL_DOCUMENTS
  | DID_DELETE_ALL_DOCUMENTS
  | SPLIT_DOCUMENT
  | DID_SPLIT_DOCUMENT
  | SUBMODULE_ERROR
deriving DecidableEq

/-- Modelled from the spec: `cmd.value`, the tag string emitted on the wire;
spec section 6 shows the wire tags equal to the member names. -/
def IC.value : IC → String
  | .ASK_CONVERSATION_DOCUMENTS => "ASK_CONVERSATION_DOCUMENTS"
  | .DID_ASK_CONVERSATION_DOCUMENTS => "DID_ASK_CONVERSATION_DOCUMENTS"
  | .ASK_CONVERSATION_NO_DOCUMENTS => "ASK_CONVERSATION_NO_DOCUMENTS"
  | .DID_ASK_CONVERSATION_NO_DOCUMENTS => "DID_ASK_CONVERSATION_NO_DOCUMENTS"
  | .EXPLAIN_TOPIC => "EXPLAIN_TOPIC"
  | .DID_EXPLAIN_TOPIC => "DID_EXPLAIN_TOPIC"
  | .GENERATE_CARDS => "GENERATE_CARDS"
  | .DID_GENERATE_CARDS => "DID_GENERATE_CARDS"
  | .CLEAR_CONVERSATION => "CLEAR_CONVERSATION"
  | .DID_CLEAR_CONVERSATION => "DID_CLEAR_CONVERSATION"
  | .ADD_DOCUMENTS => "ADD_DOCUMENTS"
  | .DID_ADD_DOCUMENTS => "DID_ADD_DOCUMENTS"
  | .DELETE_ALL_DOCUMENTS => "DELETE_ALL_DOCUMENTS"
  | .DID_DELETE_ALL_DOCUMENTS => "DID_DELETE_ALL_DOCUMENTS"
  | .SPLIT_DOCUMENT => "SPLIT_DOCUMENT"
  | .DID_SPLIT_DOCUMENT => "DID_SPLIT_DOCUMENT"
  | .SUBMODULE_ERROR => "SUBMODULE_ERROR"

/-- Modelled from the spec: the name lookup `IC[cmd]`, `none` standing for the
raised `KeyError`. -/
def IC.ofName? (s : String) : Option IC :=
  if s = "ASK_CONVERSATION_DOCUMENTS" then some .ASK_CONVERSATION_DOCUMENTS
  else if s = "DID_ASK_CONVERSATION_DOCUMENTS" then some .DID_ASK_CONVERSATION_DOCUMENTS
  else if s = "ASK_CONVERSATION_NO_DOCUMENTS" then some .ASK_CONVERSATION_NO_DOCUMENTS
  else if s = "DID_ASK_CONVERSATION_NO_DOCUMENTS" then some .DID_ASK_CONVERSATION_NO_DOCUMENTS
  else if s = "EXPLAIN_TOPIC" then some .EXPLAIN_TOPIC
  else if s = "DID_EXPLAIN_TOPIC" then some .DID_EXPLAIN_TOPIC
  else if s = "GENERATE_CARDS" then some .GENERATE_CARDS
  else if s = "DID_GENERATE_CARDS" then some .DID_GENERATE_CARDS
  else if s = "CLEAR_CONVERSATION" then some .CLEAR_CONVERSATION
  else if s = "DID_CLEAR_CONVERSATION" then some .DID_CLEAR_CONVERSATION
  else if s = "ADD_DOCUMENTS" then some .ADD_DOCUMENTS
  else if s = "DID_ADD_DOCUMENTS" then some .DID_ADD_DOCUMENTS
  else if s = "DELETE_ALL_DOCUMENTS" then some .DELETE_ALL_DOCUMENTS
  else if s = "DID_DELETE_ALL_DOCUMENTS" then some .DID_DELETE_ALL_DOCUMENTS
  else if s = "SPLIT_DOCUMENT" then some .SPLIT_DOCUMENT
  else if s = "DID_SPLIT_DOCUMENT" then some .DID_SPLIT_DOCUMENT
  else if s = "SUBMODULE_ERROR" then some .SUBMODULE_ERROR
  else none

/-- The eight tags that have a dispatch branch in `handle_module_input`; the
other members fall through the `elif` chain with no effect. -/
def IC.isRequestTag : IC → Bool
  | .ASK_CONVERSATION_DOCUMENTS => true
  | .ASK_CONVERSATION_NO_DOCUMENTS => true
  | .EXPLAIN_TOPIC => true
  | .GENERATE_CARDS => true
  | .CLEAR_CONVERSATION => true
  | .ADD_DOCUMENTS => true
  | .DELETE_ALL_DOCUMENTS => true
  | .SPLIT_DOCUMENT => true
  | _ => false

/-- One line printed to stdout by `_module_return`: either the usual
cmd/data envelope, or the bare startup line with key `status` and value
`success` (which carries no `cmd` and no cost field). -/
inductive OutLine
  | response (cmd : String) (data : List (String × JValue))
  | statusSuccess

/-- `module_return`: attaches `total_cost` (the cost accumulator's current
value) to the payload and wraps it in the cmd/data envelope.  The accumulator
value is passed explicitly here; in the source it is the ambient
`oa_cb.total_cost`. -/
def module_return (total_cost : Rat) (cmd : IC) (data : List (String × JValue)) : OutLine :=
  .response cmd.value (data ++ [("total_cost", .num total_cost)])

/-- `module_error`: the SUBMODULE_ERROR envelope; note it calls
`_module_return` directly and attaches no `total_cost`. -/
def module_error (text : String) : OutLine :=
  .response IC.SUBMODULE_ERROR.value [("error", .str text)]

/-- The `cmd` tag of an emitted line, if it is a cmd/data envelope. -/
def OutLine.cmdTag : OutLine → Option String
  | .response c _ => some c
  | .statusSuccess => none

/-- The `total_cost` payload field of an emitted line, when present. -/
def OutLine.totalCost? : OutLine → Option Rat
  | .response _ data =>
      match jlookup "total_cost" data with
      | some (.num q) => some q
      | _ => none
  | .statusSuccess => none

/-- Whether an emitted line is a SUBMODULE_ERROR envelope. -/
def OutLine.isErrorResponse : OutLine → Bool
  | .response c _ => c = "SUBMODULE_ERROR"
  | .statusSuccess => false

/-- Whether an emitted line is a non-error cmd/data envelope, i.e. one
produced by `module_return`. -/
def OutLine.isSuccessResponse : OutLine → Bool
  | .response c _ => !(c = "SUBMODULE_ERROR" : Bool)
  | .statusSuccess => false

/-- The sequence of `total_cost` values attached to a sequence of emitted
lines, in emission order. -/
def costValues (outs : List OutLine) : List Rat :=
  outs.filterMap OutLine.totalCost?

/-! ## Network oracle and the with-documents wrapper -/

/-- Modelled from the spec: the blocking network calls to the configured
provider (spec section 4.2, "every ask call is a blocking network request").
Each operation of the two wrappers is abstracted by a response function and a
billed-cost function; the dispatcher itself never inspects these values. -/
structure Oracle where
  reply : List Turn → String → String
  cost : List Turn → String → Rat
  docReply : List String → List Turn → String → String
  docSources : List String → List Turn → String → List String
  docCost : List String → List Turn → String → Rat
  explainDoc : List String → String → String
  explainDocCost : List String → String → Rat
  explainNoDoc : String → String
  explainNoDocCost : String → Rat
  genCards : String → String
  genCardsCost : String → Rat
  splitDoc : String → List String

/-- Billed API costs are non-negative (the property of the real OpenAI cost
callback that makes the accumulator monotone). -/
def Oracle.costsNonneg (o : Oracle) : Prop :=
  (∀ h q, 0 ≤ o.cost h q) ∧
  (∀ d h q, 0 ≤ o.docCost d h q) ∧
  (∀ d t, 0 ≤ o.explainDocCost d t) ∧
  (∀ t, 0 ≤ o.explainNoDocCost t) ∧
  (∀ t, 0 ≤ o.genCardsCost t)

/-- `ChatAIWithoutDocuments.human_message`: `ConversationChain.predict` calls
the model with the full accumulated history, appends the (user, reply) turns to
the buffer and returns the reply (memory semantics per spec section 4.2).
Result: updated wrapper, reply text, billed cost of the call. -/
def ChatAIWithoutDocuments.human_message (o : Oracle) (c : ChatAIWithoutDocuments)
    (query : String) : ChatAIWithoutDocuments × String × Rat :=
  let resp := o.reply c.memory query
  ({ c with memory := c.memory ++ [⟨.human, query⟩, ⟨.ai, resp⟩] }, resp,
    o.cost c.memory query)

/-- Modelled from the spec: `ChatAIWithoutDocuments.explain_topic` comes from
the `ChatInterface` base class, which is not in the repository snapshot.  On
the single-query wrapper it performs one model request and returns the
explanation text plus its billed cost, leaving the memory buffer untouched. -/
def ChatAIWithoutDocuments.explain_topic (o : Oracle) (_c : ChatAIWithoutDocuments)
    (topic : String) : String × Rat :=
  (o.explainNoDoc topic, o.explainNoDocCost topic)

/-- Modelled from the spec: `ChatAIWithoutDocuments.generate_cards`, also from
the absent `ChatInterface` base class: one model request returning the raw
cards string plus its billed cost. -/
def ChatAIWithoutDocuments.generate_cards (o : Oracle) (_c : ChatAIWithoutDocuments)
    (text : String) : String × Rat :=
  (o.genCards text, o.genCardsCost text)

/-- Modelled from the spec: `ChatAIWithDocuments` is imported by the dispatcher
but its source is not in the repository snapshot.  Per spec sections 2 and 4.2
it pairs a chat handle with a memory buffer and a document store; the handle
plays no role in any claim and is omitted. -/
structure ChatAIWithDocuments where
  memory : List Turn
  documents : List String
deriving DecidableEq

/-- Modelled from the spec: with-documents `ask` — same memory discipline as
the without-documents wrapper, additionally returning source references. -/
def ChatAIWithDocuments.human_message (o : Oracle) (c : ChatAIWithDocuments)
    (query : String) : ChatAIWithDocuments × (String × List String) × Rat :=
  let resp := o.docReply c.documents c.memory query
  ({ c with memory := c.memory ++ [⟨.human, query⟩, ⟨.ai, resp⟩] },
    (resp, o.docSources c.documents c.memory query),
    o.docCost c.documents c.memory query)

/-- Modelled from the spec: with-documents `clear_memory` empties the memory
buffer in place (spec section 4.2). -/
def ChatAIWithDocuments.clear_memory (c : ChatAIWithDocuments) : ChatAIWithDocuments :=
  { c with memory := [] }

/-- Modelled from the spec: with-documents `explain_topic`; the dispatcher's
own comment records that it internally clears the conversation. -/
def ChatAIWithDocuments.explain_topic (o : Oracle) (c : ChatAIWithDocuments)
    (topic : String) : ChatAIWithDocuments × String × Rat :=
  ({ c with memory := [] }, o.explainDoc c.documents topic,
    o.explainDocCost c.documents topic)

/-- Modelled from the spec: `add_document_from_path` forwards to the external
document store (spec section 4.2, "add by path"). -/
def ChatAIWithDocuments.add_document_from_path (c : ChatAIWithDocuments)
    (p : String) : ChatAIWithDocuments :=
  { c with documents := c.documents ++ [p] }

/-- Modelled from the spec: `clear_documents` ("delete all"). -/
def ChatAIWithDocuments.clear_documents (c : ChatAIWithDocuments) : ChatAIWithDocuments :=
  { c with documents := [] }

/-- Modelled from the spec: `split_document` ("split-into-chunks"), a pure
query against the external splitter. -/
def ChatAIWithDocuments.split_document (o : Oracle) (_c : ChatAIWithDocuments)
    (p : String) : List String :=
  o.splitDoc p

/-! ## Dispatcher state and `handle_module_input` -/

/-- The mutable process state the loop touches: the three wrapper instances
constructed at startup and the cost accumulator `oa_cb.total_cost` opened at
loop entry. -/
structure ModuleState where
  withDocumentsAI : ChatAIWithDocuments
  withoutDocumentsAI : ChatAIWithoutDocuments
  withoutDocumentsSingleQuery : ChatAIWithoutDocuments
  total_cost : Rat
deriving DecidableEq

/-- A conversation-model invocation recorded for specification purposes: the
history handed to the model and the query (the "request" of spec section 8). -/
structure ModelRequest where
  history : List Turn
  query : String
deriving DecidableEq

/-- `check_credentials` (`__init__.py` lines 49-70): re-reads the provider
from settings with the `ValueError` fallback, then requires the provider's
environment variable to be set; on a missing variable it emits one
`module_error` line and reports failure. -/
def check_credentials (settings : Settings) (env : Env) : Bool × List OutLine :=
  match check_credentials_provider_type settings with
  | .OPENAI =>
      match env "OPENAI_API_KEY" with
      | none => (false, [module_error "Please set OPENAI_API_KEY"])
      | some _ => (true, [])
  | .GITHUB_COPILOT =>
      match env "GITHUB_COPILOT_TOKEN" with
      | none => (false, [module_error "Please set GITHUB_COPILOT_TOKEN"])
      | some _ => (true, [])

/-- Extraction of `doc['path']` over the `documents` payload list
(`__init__.py` lines 150-151); `none` stands for the raised lookup error. -/
def extractPaths : List JValue → Option (List String)
  | [] => some []
  | .obj kvs :: rest =>
      match jlookup "path" kvs with
      | some (.str p) => (extractPaths rest).map (p :: ·)
      | _ => none
  | _ :: _ => none

/-- `handle_module_input` (`__init__.py` lines 73-167): gate on
`check_credentials`, look the tag up in the command enum, and dispatch through
the `elif` chain.  `.error msg` stands for an exception propagating out of the
function (caught by the loop, which then prints `module_error msg`); the
result triple is (new state, emitted lines, recorded model requests). -/
def handle_module_input (settings : Settings) (env : Env) (o : Oracle)
    (st : ModuleState) (data : List (String × JValue)) :
    Except String (ModuleState × List OutLine × List ModelRequest) :=
  match check_credentials settings env with
  | (false, errs) => .ok (st, errs, [])
  | (true, _) =>
    match jlookup "cmd" data with
    | none => .error (keyErrorMsg "cmd")
    | some cmdVal =>
      match cmdVal with
      | .str cmdStr =>
        match IC.ofName? cmdStr with
        | none => .error (keyErrorMsg cmdStr)
        | some cmd =>
          match cmd with
          | .ASK_CONVERSATION_DOCUMENTS =>
              match jlookup "query" data with
              | none => .error (keyErrorMsg "query")
              | some (.str q) =>
                  let r := st.withDocumentsAI.human_message o q
                  .ok ({ st with withDocumentsAI := r.1,
                                 total_cost := st.total_cost + r.2.2 },
                       [module_return (st.total_cost + r.2.2) .DID_ASK_CONVERSATION_DOCUMENTS
                          [("response", .str r.2.1.1),
                           ("source_documents", .str (jshow (.arr (r.2.1.2.map .str))))]],
                       [⟨st.withDocumentsAI.memory, q⟩])
              | some _ => .error (keyErrorMsg "query")
          | .ASK_CONVERSATION_NO_DOCUMENTS =>
              match jlookup "query" data with
              | none => .error (keyErrorMsg "query")
              | some (.str q) =>
                  let r := st.withoutDocumentsAI.human_message o q
                  .ok ({ st with withoutDocumentsAI := r.1,
                                 total_cost := st.total_cost + r.2.2 },
                       [module_return (st.total_cost + r.2.2) .DID_ASK_CONVERSATION_NO_DOCUMENTS
                          [("response", .str r.2.1)]],
                       [⟨st.withoutDocumentsAI.memory, q⟩])
              | some _ => .error (keyErrorMsg "query")
          | .EXPLAIN_TOPIC =>
              match jlookup "topic" data with
              | none => .error (keyErrorMsg "topic")
              | some (.str topic) =>
                  match jlookup "options" data with
                  | none => .error (keyErrorMsg "options")
                  | some (.obj opts) =>
                      match jlookup "custom_prompt" opts, jlookup "level_of_detail" opts,
                            jlookup "level_of_expertise" opts, jlookup "use_documents" opts,
                            jlookup "language" opts with
                      | some _, some _, some _, some useDocs, some _ =>
                          if useDocs.pyTruthy then
                            let r := st.withDocumentsAI.explain_topic o topic
                            .ok ({ st with withDocumentsAI := r.1,
                                           total_cost := st.total_cost + r.2.2 },
                                 [module_return (st.total_cost + r.2.2) .DID_EXPLAIN_TOPIC
                                    [("explanation", .str r.2.1)]],
                                 [])
                          else
                            let r := st.withoutDocumentsSingleQuery.explain_topic o topic
                            .ok ({ st with total_cost := st.total_cost + r.2 },
                                 [module_return (st.total_cost + r.2) .DID_EXPLAIN_TOPIC
                                    [("explanation", .str r.1)]],
                                 [])
                      | _, _, _, _, _ => .error (keyErrorMsg "options key")
                  | some _ => .error (keyErrorMsg "options")
              | some _ => .error (keyErrorMsg "topic")
          | .GENERATE_CARDS =>
              match jlookup "text" data, jlookup "custom_prompt" data,
                    jlookup "type" data, jlookup "language" data with
              | some (.str text), some _, some _, some _ =>
                  let r := st.withoutDocumentsSingleQuery.generate_cards o text
                  .ok ({ st with total_cost := st.total_cost + r.2 },
                       [module_return (st.total_cost + r.2) .DID_GENERATE_CARDS
                          [("cardsRawString", .str r.1)]],
                       [])
              | _, _, _, _ => .error (keyErrorMsg "text")
          | .CLEAR_CONVERSATION =>
              .ok ({ st with withDocumentsAI := st.withDocumentsAI.clear_memory,
                             withoutDocumentsAI := st.withoutDocumentsAI.clear_memory },
                   [module_return st.total_cost .DID_CLEAR_CONVERSATION []],
                   [])
          | .ADD_DOCUMENTS =>
              match jlookup "documents" data with
              | none => .error (keyErrorMsg "documents")
              | some (.arr docs) =>
                  match extractPaths docs with
                  | none => .error (keyErrorMsg "path")
                  | some paths =>
                      .ok ({ st with withDocumentsAI :=
                               (paths.foldl ChatAIWithDocuments.add_document_from_path st.withDocumentsAI) },
                           [module_return st.total_cost .DID_ADD_DOCUMENTS
                              [("documents_added", .arr docs)]],
                           [])
              | some _ => .error (keyErrorMsg "documents")
          | .DELETE_ALL_DOCUMENTS =>
              .ok ({ st with withDocumentsAI := st.withDocumentsAI.clear_documents },
                   [module_return st.total_cost .DID_DELETE_ALL_DOCUMENTS []],
                   [])
          | .SPLIT_DOCUMENT =>
              match jlookup "path" data with
              | none => .error (keyErrorMsg "path")
              | some (.str p) =>
                  let chunks := st.withDocumentsAI.split_document o p
                  .ok (st,
                       [module_return st.total_cost .DID_SPLIT_DOCUMENT
                          [("chunks", .str (jshow (.arr (chunks.map .str))))]],
                       [])
              | some _ => .error (keyErrorMsg "path")
          | _ => .ok (st, [], [])
      | _ => .error (keyErrorMsg (jshow cmdVal))

/-! ## The stdin line loop and startup -/

/-- One stripped stdin line, classified the way the loop's `json.loads`
try/except classifies it: blank after stripping, non-empty but not valid JSON,
or a parsed JSON value. -/
inductive RawLine
  | empty
  | invalid (raw : String)
  | parsed (v : JValue)

/-- One iteration of the `while True` loop body (`__init__.py` lines 192-209):
skip blank lines; report invalid JSON; reject falsy or non-dict values as
malformed; otherwise run `handle_module_input`, converting a propagated
exception into a `module_error` line.  Result: new state, lines printed,
model requests performed. -/
def processLine (settings : Settings) (env : Env) (o : Oracle) (st : ModuleState) :
    RawLine → ModuleState × List OutLine × List ModelRequest
  | .empty => (st, [], [])
  | .invalid raw => (st, [module_error ("Invalid JSON input: " ++ raw)], [])
  | .parsed (.obj kvs) =>
      if kvs.isEmpty then
        (st, [module_error ("<ChatAI Module> Malformed module input: " ++ jshow (.obj kvs))], [])
      else
        match handle_module_input settings env o st kvs with
        | .ok r => r
        | .error msg => (st, [module_error msg], [])
  | .parsed v => (st, [module_error ("<ChatAI Module> Malformed module input: " ++ jshow v)], [])

/-- The loop itself, run over a finite prefix of stdin: processes the lines in
order, threading the state and concatenating the printed lines and the model
requests. -/
def runLines (settings : Settings) (env : Env) (o : Oracle) :
    ModuleState → List RawLine → ModuleState × List OutLine × List ModelRequest
  | st, [] => (st, [], [])
  | st, l :: ls =>
      let r := processLine settings env o st l
      let rest := runLines settings env o r.1 ls
      (rest.1, r.2.1 ++ rest.2.1, r.2.2 ++ rest.2.2)

/-- The `__main__` startup block (`__init__.py` lines 170-188) on its
non-raising path: `.env` creation and `load_dotenv` are filesystem effects
outside the model (`env` is the post-load environment); `check_credentials`
runs (emitting its error line on failure), the wrappers are constructed only
when it passes, and the `status: success` line is printed unconditionally
afterwards.  Result: whether the wrappers were constructed, and the lines
printed. -/
def startup (settings : Settings) (env : Env) : Bool × List OutLine :=
  match check_credentials settings env with
  | (true, _) => (true, [OutLine.statusSuccess])
  | (false, errs) => (false, errs ++ [OutLine.statusSuccess])

/-- The dispatcher state as constructed on the successful startup path: fresh
wrappers and the cost accumulator opened at 0 by `get_openai_callback`. -/
def initialState (settings : Settings) (env : Env) : ModuleState :=
  { withDocumentsAI := { memory := [], documents := [] }
    withoutDocumentsAI := ChatAIWithoutDocuments.init settings env
    withoutDocumentsSingleQuery := ChatAIWithoutDocuments.init settings env
    total_cost := 0 }

/-! ## Concrete fixtures used by witnesses and counterexamples -/

/-- An environment with both credentials present. -/
def envFull : Env := fun k =>
  if k = "OPENAI_API_KEY" then some "sk-test"
  else if k = "GITHUB_COPILOT_TOKEN" then some "ghu-test"
  else none

/-- An environment with no variables set. -/
def envNone : Env := fun _ => none

/-- An environment where `OPENAI_API_KEY` is set to the empty string. -/
def envEmptyOpenAI : Env := fun k =>
  if k = "OPENAI_API_KEY" then some "" else none

/-- A settings file selecting the OpenAI provider. -/
def settingsOpenAI : Settings :=
  { temperature := some 0, llmModel := some "gpt-3.5-turbo", llmProvider := some "openai" }

/-- A deterministic oracle whose calls all cost zero. -/
def zeroOracle : Oracle :=
  { reply := fun _ q => "echo: " ++ q
    cost := fun _ _ => 0
    docReply := fun _ _ q => "docecho: " ++ q
    docSources := fun _ _ _ => []
    docCost := fun _ _ _ => 0
    explainDoc := fun _ t => "explained: " ++ t
    explainDocCost := fun _ _ => 0
    explainNoDoc := fun t => "explained: " ++ t
    explainNoDocCost := fun _ => 0
    genCards := fun t => "cards: " ++ t
    genCardsCost := fun _ => 0
    splitDoc := fun p => [p] }

/-- The dispatcher state right after a successful OpenAI startup. -/
def st0 : ModuleState := initialState settingsOpenAI envFull

/-- An `ASK_CONVERSATION_NO_DOCUMENTS` input line with the given query. -/
def askLine (q : String) : RawLine :=
  .parsed (.obj [("cmd", .str "ASK_CONVERSATION_NO_DOCUMENTS"), ("query", .str q)])

/-- A `CLEAR_CONVERSATION` input line. -/
def clearLine : RawLine :=
  .parsed (.obj [("cmd", .str "CLEAR_CONVERSATION")])

/-- The spec's wording of the credential predicate, for comparison against the
code: "the corresponding named environment variable is set and non-empty". -/
def envVarSetNonempty (env : Env) (name : String) : Bool :=
  match env name with
  | none => false
  | some v => !(v = "" : Bool)

/-! ## Helper lemmas -/

/-- A `SUBMODULE_ERROR` line carries no `total_cost` field. -/
theorem module_error_totalCost (msg : String) : (module_error msg).totalCost? = none := rfl

/-- A `SUBMODULE_ERROR` line is classified as an error response. -/
theorem module_error_isError (msg : String) : (module_error msg).isErrorResponse = true := rfl

/-- A `SUBMODULE_ERROR` line is not a success response. -/
theorem module_error_isSuccess (msg : String) : (module_error msg).isSuccessResponse = false := rfl

/-- `check_credentials` either passes silently or fails having printed exactly
one error line. -/
theorem check_credentials_shape (settings : Settings) (env : Env) :
    check_credentials settings env = (true, []) ∨
    ∃ msg, check_credentials settings env = (false, [module_error msg]) := by
  unfold check_credentials
  split <;> split
  · exact Or.inr ⟨_, rfl⟩
  · exact Or.inl rfl
  · exact Or.inr ⟨_, rfl⟩
  · exact Or.inl rfl

/-- Lowering the head of a non-decreasing chain keeps it non-decreasing. -/
theorem chain_le_cons {a b : Rat} {l : List Rat} (hab : a ≤ b)
    (h : List.Chain' (· ≤ ·) (b :: l)) : List.Chain' (· ≤ ·) (a :: l) := by
  cases l with
  | nil => simp
  | cons c l =>
      rw [List.chain'_cons] at h ⊢
      exact ⟨le_trans hab h.1, h.2⟩

/-- Field bookkeeping for a singleton error output. -/
theorem error_singleton_spec (msg : String) :
    costValues [module_error msg] = [] ∧
    (∀ out ∈ [module_error msg], out.isErrorResponse = true → out.totalCost? = none) ∧
    (∀ out ∈ [module_error msg], out.isSuccessResponse = true → (out.totalCost?).isSome = true) := by
  refine ⟨rfl, ?_, ?_⟩ <;> intro out hout <;> rw [List.mem_singleton] at hout <;> subst hout
  · intro _; exact module_error_totalCost msg
  · intro hbad; rw [module_error_isSuccess] at hbad; cases hbad

/-- Field bookkeeping for a singleton non-error output. -/
theorem success_singleton_spec (x : OutLine) (hne : x.isErrorResponse = false)
    (hs : (x.totalCost?).isSome = true) :
    (∀ out ∈ [x], out.isErrorResponse = true → out.totalCost? = none) ∧
    (∀ out ∈ [x], out.isSuccessResponse = true → (out.totalCost?).isSome = true) := by
  constructor <;> intro out hout <;> rw [List.mem_singleton] at hout <;> subst hout
  · intro hbad; rw [hne] at hbad; cases hbad
  · intro _; exact hs

/-- The bookkeeping invariant of one loop-body result value: the accumulator
does not decrease, the emitted lines carry at most the new accumulator value
as their `total_cost`, error lines carry none and success lines carry one. -/
def OkSpec (st : ModuleState)
    (r : Except String (ModuleState × List OutLine × List ModelRequest)) : Prop :=
  match r with
  | .error _ => True
  | .ok r =>
      st.total_cost ≤ r.1.total_cost ∧
      (costValues r.2.1 = [] ∨ costValues r.2.1 = [r.1.total_cost]) ∧
      (∀ out ∈ r.2.1, out.isErrorResponse = true → out.totalCost? = none) ∧
      (∀ out ∈ r.2.1, out.isSuccessResponse = true → (out.totalCost?).isSome = true)

/-- `handle_module_input` satisfies the bookkeeping invariant whenever the
oracle's billed costs are non-negative. -/
theorem handle_module_input_okSpec (settings : Settings) (env : Env) (o : Oracle)
    (st : ModuleState) (data : List (String × JValue)) (h : o.costsNonneg) :
    OkSpec st (handle_module_input settings env o st data) := by
  obtain ⟨h1, h2, h3, h4, h5⟩ := h
  unfold handle_module_input
  split
  · rename_i errs heq
    rcases check_credentials_shape settings env with hc | ⟨msg, hc⟩
    · rw [heq] at hc
      exact absurd (congrArg Prod.fst hc) (by simp)
    · rw [heq] at hc
      have herrs : errs = [module_error msg] := congrArg Prod.snd hc
      subst herrs
      obtain ⟨cv, he, hs⟩ := error_singleton_spec msg
      exact ⟨le_refl _, Or.inl cv, he, hs⟩
  · repeat' split
    all_goals try trivial
    all_goals
      first
      | exact ⟨le_refl _, Or.inl rfl, by simp, by simp⟩
      | exact ⟨le_refl _, Or.inr rfl,
          (success_singleton_spec _ (by rfl) (by rfl)).1,
          (success_singleton_spec _ (by rfl) (by rfl)).2⟩
      | (refine ⟨le_add_of_nonneg_right ?_, Or.inr rfl,
          (success_singleton_spec _ (by rfl) (by rfl)).1,
          (success_singleton_spec _ (by rfl) (by rfl)).2⟩
         first
         | exact h1 _ _
         | exact h2 _ _ _
         | exact h3 _ _
         | exact h4 _
         | exact h5 _)

/-- `costValues` distributes over concatenation of output lines. -/
theorem costValues_append (a b : List OutLine) :
    costValues (a ++ b) = costValues a ++ costValues b := by
  simp [costValues, List.filterMap_append]

/-- One loop iteration satisfies the bookkeeping invariant: the accumulator
does not decrease, at most one `total_cost` value (the new accumulator) is
emitted, error lines carry no `total_cost` and success lines carry one. -/
theorem processLine_spec (settings : Settings) (env : Env) (o : Oracle)
    (st : ModuleState) (line : RawLine) (h : o.costsNonneg) :
    st.total_cost ≤ (processLine settings env o st line).1.total_cost ∧
    (costValues (processLine settings env o st line).2.1 = [] ∨
      costValues (processLine settings env o st line).2.1
        = [(processLine settings env o st line).1.total_cost]) ∧
    (∀ out ∈ (processLine settings env o st line).2.1,
        out.isErrorResponse = true → out.totalCost? = none) ∧
    (∀ out ∈ (processLine settings env o st line).2.1,
        out.isSuccessResponse = true → (out.totalCost?).isSome = true) := by
  cases line with
  | empty =>
      exact ⟨le_refl _, Or.inl rfl, by simp [processLine], by simp [processLine]⟩
  | invalid raw =>
      obtain ⟨cv, he, hs⟩ := error_singleton_spec ("Invalid JSON input: " ++ raw)
      exact ⟨le_refl _, Or.inl cv, he, hs⟩
  | parsed v =>
      cases v with
      | obj kvs =>
          by_cases hk : kvs.isEmpty
          · obtain ⟨cv, he, hs⟩ := error_singleton_spec
              ("<ChatAI Module> Malformed module input: " ++ jshow (.obj kvs))
            simp only [processLine, hk, if_true]
            exact ⟨le_refl _, Or.inl cv, he, hs⟩
          · rw [Bool.not_eq_true] at hk
            rcases hh : handle_module_input settings env o st kvs with msg | r
            · obtain ⟨cv, he, hs⟩ := error_singleton_spec msg
              simp only [processLine, hk, Bool.false_eq_true, if_false, hh]
              exact ⟨le_refl _, Or.inl cv, he, hs⟩
            · have hspec := handle_module_input_okSpec settings env o st kvs h
              rw [hh] at hspec
              simp only [processLine, hk, Bool.false_eq_true, if_false, hh]
              exact hspec
      | null =>
          obtain ⟨cv, he, hs⟩ := error_singleton_spec
            ("<ChatAI Module> Malformed module input: " ++ jshow .null)
          exact ⟨le_refl _, Or.inl cv, he, hs⟩
      | bool b =>
          obtain ⟨cv, he, hs⟩ := error_singleton_spec
            ("<ChatAI Module> Malformed module input: " ++ jshow (.bool b))
          exact ⟨le_refl _, Or.inl cv, he, hs⟩
      | num q =>
          obtain ⟨cv, he, hs⟩ := error_singleton_spec
            ("<ChatAI Module> Malformed module input: " ++ jshow (.num q))
          exact ⟨le_refl _, Or.inl cv, he, hs⟩
      | str s =>
          obtain ⟨cv, he, hs⟩ := error_singleton_spec
            ("<ChatAI Module> Malformed module input: " ++ jshow (.str s))
          exact ⟨le_refl _, Or.inl cv, he, hs⟩
      | arr xs =>
          obtain ⟨cv, he, hs⟩ := error_singleton_spec
            ("<ChatAI Module> Malformed module input: " ++ jshow (.arr xs))
          exact ⟨le_refl _, Or.inl cv, he, hs⟩

/-- A whole run of the loop satisfies the bookkeeping invariant: the
accumulator never decreases, the emitted `total_cost` values form a
non-decreasing sequence bounded by the final accumulator, error lines carry no
`total_cost` and success lines carry one. -/
theorem runLines_spec (settings : Settings) (env : Env) (o : Oracle)
    (h : o.costsNonneg) (lines : List RawLine) (st : ModuleState) :
    st.total_cost ≤ (runLines settings env o st lines).1.total_cost ∧
    List.Chain' (· ≤ ·)
      (st.total_cost :: costValues (runLines settings env o st lines).2.1) ∧
    (∀ q ∈ costValues (runLines settings env o st lines).2.1,
        q ≤ (runLines settings env o st lines).1.total_cost) ∧
    (∀ out ∈ (runLines settings env o st lines).2.1,
        out.isErrorResponse = true → out.totalCost? = none) ∧
    (∀ out ∈ (runLines settings env o st lines).2.1,
        out.isSuccessResponse = true → (out.totalCost?).isSome = true) := by
  induction lines generalizing st with
  | nil =>
      refine ⟨le_refl _, ?_, ?_, ?_, ?_⟩ <;> simp [runLines, costValues]
  | cons l ls ih =>
      obtain ⟨ple, pcv, perr, psucc⟩ := processLine_spec settings env o st l h
      obtain ⟨ile, ichain, ibound, ierr, isucc⟩ := ih (processLine settings env o st l).1
      simp only [runLines]
      rw [costValues_append]
      refine ⟨le_trans ple ile, ?_, ?_, ?_, ?_⟩
      · rcases pcv with pcv | pcv
        · rw [pcv, List.nil_append]
          exact chain_le_cons ple ichain
        · rw [pcv, List.singleton_append, List.chain'_cons]
          exact ⟨ple, ichain⟩
      · intro q hq
        rcases List.mem_append.mp hq with hq | hq
        · rcases pcv with pcv | pcv
          · rw [pcv] at hq; cases hq
          · rw [pcv, List.mem_singleton] at hq
            subst hq; exact ile
        · exact ibound q hq
      · intro out hout
        rcases List.mem_append.mp hout with hout | hout
        · exact perr out hout
        · exact ierr out hout
      · intro out hout
        rcases List.mem_append.mp hout with hout | hout
        · exact psucc out hout
        · exact isucc out hout

/-- A non-empty list of entries is not `isEmpty`. -/
theorem isEmpty_false_of_ne_nil {α : Type} {l : List α} (h : l ≠ []) : l.isEmpty = false := by
  cases l with
  | nil => exact absurd rfl h
  | cons a l => rfl

/-- When the credential check fails, processing any parsed non-empty JSON
object emits exactly the credential error and changes nothing. -/
theorem credential_fail_processLine (settings : Settings) (env : Env) (o : Oracle)
    (st : ModuleState) (kvs : List (String × JValue)) (msg : String)
    (hc : check_credentials settings env = (false, [module_error msg])) (hne : kvs ≠ []) :
    processLine settings env o st (.parsed (.obj kvs)) = (st, [module_error msg], []) := by
  have hkvs : kvs.isEmpty = false := isEmpty_false_of_ne_nil hne
  simp [processLine, hkvs, handle_module_input, hc]

/-! ## Claims -/

/-- C1 (counterexample): with `OPENAI_API_KEY` set to the empty string, the
OpenAI provider's `validate_credentials` returns true although the variable is
not "set and non-empty" as the claim requires — the code only tests
`is not None`. -/
theorem C1_counterexample :
    (LLMProviderFactory.create_provider .OPENAI none 0).validate_credentials envEmptyOpenAI
      = true ∧
    envEmptyOpenAI "OPENAI_API_KEY" = some "" ∧
    envVarSetNonempty envEmptyOpenAI "OPENAI_API_KEY" = false :=
  ⟨rfl, rfl, rfl⟩

/-- C1 (amended): for both provider kinds, `validate_credentials` returns true
iff the corresponding named environment variable (`OPENAI_API_KEY` resp.
`GITHUB_COPILOT_TOKEN`) is set at all — an empty value still passes. -/
theorem C1_amended (env : Env) (m : String) (t : Rat) :
    ((LLMProvider.mk .OPENAI m t).validate_credentials env = true
      ↔ (env "OPENAI_API_KEY").isSome = true) ∧
    ((LLMProvider.mk .GITHUB_COPILOT m t).validate_credentials env = true
      ↔ (env "GITHUB_COPILOT_TOKEN").isSome = true) := by
  constructor <;> simp [LLMProvider.validate_credentials]

/-- C2 (counterexample): a parsed JSON object whose cmd tag `BOGUS` is not a
recognized command tag does produce a response line — the `KeyError` from the
enum lookup is caught and reported as a SUBMODULE_ERROR — contradicting the
claim that such lines are silently ignored. -/
theorem C2_counterexample :
    (processLine settingsOpenAI envFull zeroOracle st0
        (.parsed (.obj [("cmd", .str "BOGUS")]))).2.1
      = [module_error (keyErrorMsg "BOGUS")] ∧
    [module_error (keyErrorMsg "BOGUS")] ≠ ([] : List OutLine) :=
  ⟨rfl, by simp⟩

/-- C2 (amended): with valid credentials, an input object whose cmd value
names a command-enum member that is not one of the eight dispatched request
tags yields no response at all and leaves the state unchanged (silently
ignored); a cmd value that is not an enum member name at all instead yields
exactly one SUBMODULE_ERROR response carrying the `KeyError` text. -/
theorem C2_amended (settings : Settings) (env : Env) (o : Oracle) (st : ModuleState)
    (kvs : List (String × JValue)) (s : String)
    (hok : (check_credentials settings env).1 = true)
    (hcmd : jlookup "cmd" kvs = some (.str s)) (hne : kvs ≠ []) :
    (IC.ofName? s = none →
      processLine settings env o st (.parsed (.obj kvs))
        = (st, [module_error (keyErrorMsg s)], [])) ∧
    (∀ c : IC, IC.ofName? s = some c → c.isRequestTag = false →
      processLine settings env o st (.parsed (.obj kvs)) = (st, [], [])) := by
  have hkvs : kvs.isEmpty = false := isEmpty_false_of_ne_nil hne
  obtain ⟨errs, hc⟩ : ∃ errs, check_credentials settings env = (true, errs) := by
    rcases check_credentials_shape settings env with hc | ⟨msg, hc⟩
    · exact ⟨[], hc⟩
    · rw [hc] at hok; cases hok
  constructor
  · intro hnone
    simp [processLine, hkvs, handle_module_input, hc, hcmd, hnone]
  · intro c hsome hreq
    cases c <;> simp_all [processLine, handle_module_input, IC.isRequestTag]

/-- C2 (witness): a `DID_CLEAR_CONVERSATION` tag (an enum member that is not a
request tag) is silently ignored. -/
theorem C2_witness :
    processLine settingsOpenAI envFull zeroOracle st0
      (.parsed (.obj [("cmd", JValue.str "DID_CLEAR_CONVERSATION")])) = (st0, [], []) :=
  (C2_amended settingsOpenAI envFull zeroOracle st0
      [("cmd", JValue.str "DID_CLEAR_CONVERSATION")] "DID_CLEAR_CONVERSATION"
      rfl rfl (by simp)).2 IC.DID_CLEAR_CONVERSATION rfl rfl

/-- C4 (confirmed): a non-empty line that is not valid JSON makes the loop
emit exactly one SUBMODULE_ERROR response (with an error string in its
payload) and continue with the remaining lines unchanged. -/
theorem C4_confirmed (settings : Settings) (env : Env) (o : Oracle) (st : ModuleState)
    (raw : String) (rest : List RawLine) :
    processLine settings env o st (.invalid raw)
      = (st, [module_error ("Invalid JSON input: " ++ raw)], []) ∧
    (module_error ("Invalid JSON input: " ++ raw)).isErrorResponse = true ∧
    runLines settings env o st (.invalid raw :: rest)
      = ((runLines settings env o st rest).1,
         module_error ("Invalid JSON input: " ++ raw) :: (runLines settings env o st rest).2.1,
         (runLines settings env o st rest).2.2) := by
  refine ⟨rfl, rfl, ?_⟩
  simp [runLines, processLine]

/-- C5 (confirmed): with settings selecting provider `github_copilot` and
model `gpt-4`, the constructed wrapper's chat handle targets the
GitHub-Copilot base URL with model `gpt-4`, not the default `gpt-4o`. -/
theorem C5_confirmed (t : Option Rat) (env : Env) :
    ChatAIWithoutDocuments.selected_provider_type
        { temperature := t, llmModel := some "gpt-4", llmProvider := some "github_copilot" }
      = .GITHUB_COPILOT ∧
    (ChatAIWithoutDocuments.init
        { temperature := t, llmModel := some "gpt-4", llmProvider := some "github_copilot" }
        env).llm.model_name = "gpt-4" ∧
    (ChatAIWithoutDocuments.init
        { temperature := t, llmModel := some "gpt-4", llmProvider := some "github_copilot" }
        env).llm.openai_api_base = some "https://api.githubcopilot.com" ∧
    "gpt-4" ≠ GitHubCopilotProvider.DEFAULT_MODEL :=
  ⟨rfl, rfl, rfl, by decide⟩

/-- C6 (confirmed): an unrecognized `llmProvider` string falls back to the
OpenAI provider kind both in the wrapper constructor and in
`check_credentials`. -/
theorem C6_confirmed (settings : Settings) (s : String)
    (hp : settings.llmProvider = some s)
    (h1 : s ≠ "openai") (h2 : s ≠ "github_copilot") :
    ChatAIWithoutDocuments.selected_provider_type settings = .OPENAI ∧
    check_credentials_provider_type settings = .OPENAI := by
  unfold ChatAIWithoutDocuments.selected_provider_type check_credentials_provider_type
  rw [hp]
  simp [LLMProviderType.ofValue?, h1, h2]

/-- C6 (witness): the fallback at the concrete unrecognized value `bogus`. -/
theorem C6_witness :
    ChatAIWithoutDocuments.selected_provider_type
        { temperature := none, llmModel := none, llmProvider := some "bogus" } = .OPENAI ∧
    check_credentials_provider_type
        { temperature := none, llmModel := none, llmProvider := some "bogus" } = .OPENAI :=
  C6_confirmed _ "bogus" rfl (by decide) (by decide)

/-- C7 (confirmed): `clear` empties the memory buffer in place, and the
sequence [ASK_CONVERSATION_NO_DOCUMENTS, CLEAR_CONVERSATION,
ASK_CONVERSATION_NO_DOCUMENTS] yields exactly three responses with those
response tags in that order, while the third command's model request carries
an empty history (so it excludes the first turn). -/
theorem C7_confirmed (settings : Settings) (env : Env) (o : Oracle) (st : ModuleState)
    (q1 q2 : String) (hok : (check_credentials settings env).1 = true) :
    (∀ c : ChatAIWithoutDocuments, c.clear_memory.memory = []) ∧
    (runLines settings env o st [askLine q1, clearLine, askLine q2]).2.1.map OutLine.cmdTag
      = [some "DID_ASK_CONVERSATION_NO_DOCUMENTS", some "DID_CLEAR_CONVERSATION",
         some "DID_ASK_CONVERSATION_NO_DOCUMENTS"] ∧
    (runLines settings env o st [askLine q1, clearLine, askLine q2]).2.2
      = [⟨st.withoutDocumentsAI.memory, q1⟩, ⟨[], q2⟩] := by
  obtain ⟨errs, hc⟩ : ∃ errs, check_credentials settings env = (true, errs) := by
    rcases check_credentials_shape settings env with hc | ⟨msg, hc⟩
    · exact ⟨[], hc⟩
    · rw [hc] at hok; cases hok
  refine ⟨fun c => rfl, ?_, ?_⟩ <;>
    simp [runLines, processLine, askLine, clearLine, handle_module_input, hc, jlookup,
      IC.ofName?, ChatAIWithoutDocuments.human_message, ChatAIWithoutDocuments.clear_memory,
      ChatAIWithDocuments.clear_memory, module_return, OutLine.cmdTag, IC.value]

/-- C7 (witness): the three-command sequence at a concrete state. -/
theorem C7_witness :
    (runLines settingsOpenAI envFull zeroOracle st0
        [askLine "hello", clearLine, askLine "world"]).2.1.map OutLine.cmdTag
      = [some "DID_ASK_CONVERSATION_NO_DOCUMENTS", some "DID_CLEAR_CONVERSATION",
         some "DID_ASK_CONVERSATION_NO_DOCUMENTS"] ∧
    (runLines settingsOpenAI envFull zeroOracle st0
        [askLine "hello", clearLine, askLine "world"]).2.2
      = [⟨st0.withoutDocumentsAI.memory, "hello"⟩, ⟨[], "world"⟩] :=
  ⟨(C7_confirmed settingsOpenAI envFull zeroOracle st0 "hello" "world" rfl).2.1,
   (C7_confirmed settingsOpenAI envFull zeroOracle st0 "hello" "world" rfl).2.2⟩

/-- C8 (confirmed): when the credential check fails, any parsed command object
is answered with exactly one SUBMODULE_ERROR line, its execution is skipped
(state unchanged, no model request), and the loop continues with the
remaining lines. -/
theorem C8_confirmed (settings : Settings) (env : Env) (o : Oracle) (st : ModuleState)
    (kvs : List (String × JValue)) (rest : List RawLine)
    (hfail : (check_credentials settings env).1 = false) (hne : kvs ≠ []) :
    ∃ msg, check_credentials settings env = (false, [module_error msg]) ∧
      processLine settings env o st (.parsed (.obj kvs))
        = (st, [module_error msg], []) ∧
      runLines settings env o st (.parsed (.obj kvs) :: rest)
        = ((runLines settings env o st rest).1,
           module_error msg :: (runLines settings env o st rest).2.1,
           (runLines settings env o st rest).2.2) := by
  rcases check_credentials_shape settings env with hc | ⟨msg, hc⟩
  · rw [hc] at hfail; cases hfail
  · have hp := credential_fail_processLine settings env o st kvs msg hc hne
    refine ⟨msg, hc, hp, ?_⟩
    simp [runLines, hp]

/-- C8 (witness): a `CLEAR_CONVERSATION` command with no credentials present
is refused with one error line and the state is untouched. -/
theorem C8_witness :
    ∃ msg, check_credentials settingsOpenAI envNone = (false, [module_error msg]) ∧
      processLine settingsOpenAI envNone zeroOracle st0
          (.parsed (.obj [("cmd", JValue.str "CLEAR_CONVERSATION")]))
        = (st0, [module_error msg], []) ∧
      runLines settingsOpenAI envNone zeroOracle st0
          [.parsed (.obj [("cmd", JValue.str "CLEAR_CONVERSATION")])]
        = ((runLines settingsOpenAI envNone zeroOracle st0 []).1,
           module_error msg :: (runLines settingsOpenAI envNone zeroOracle st0 []).2.1,
           (runLines settingsOpenAI envNone zeroOracle st0 []).2.2) :=
  C8_confirmed settingsOpenAI envNone zeroOracle st0
    [("cmd", JValue.str "CLEAR_CONVERSATION")] [] rfl (by simp)

/-- C9 (counterexample): with no credentials set, startup fails its credential
check yet still emits the `status: success` line right after the error line,
contradicting the claim that on failure the process emits one error response
instead of the success line. -/
theorem C9_counterexample :
    (check_credentials settingsOpenAI envNone).1 = false ∧
    (startup settingsOpenAI envNone).2
      = [module_error "Please set OPENAI_API_KEY", OutLine.statusSuccess] ∧
    (startup settingsOpenAI envNone).2.length ≠ 1 :=
  ⟨rfl, rfl, by decide⟩

/-- C9 (amended): on a passing credential check, startup emits the single
`status: success` line (which carries no cost field) and constructs the
wrappers; on a failing check it emits one credential-error line followed by
the same success line, leaves the wrappers unconstructed, and the loop is then
non-functional — every parsed command object is answered only with the
credential error, with no state change. -/
theorem C9_amended (settings : Settings) (env : Env) :
    OutLine.totalCost? OutLine.statusSuccess = none ∧
    ((check_credentials settings env).1 = true →
      startup settings env = (true, [OutLine.statusSuccess])) ∧
    ((check_credentials settings env).1 = false →
      ∃ msg, check_credentials settings env = (false, [module_error msg]) ∧
        startup settings env = (false, [module_error msg, OutLine.statusSuccess]) ∧
        ∀ (o : Oracle) (st : ModuleState) (kvs : List (String × JValue)), kvs ≠ [] →
          processLine settings env o st (.parsed (.obj kvs))
            = (st, [module_error msg], [])) := by
  refine ⟨rfl, ?_, ?_⟩
  · intro hok
    rcases check_credentials_shape settings env with hc | ⟨msg, hc⟩
    · simp [startup, hc]
    · rw [hc] at hok; cases hok
  · intro hfail
    rcases check_credentials_shape settings env with hc | ⟨msg, hc⟩
    · rw [hc] at hfail; cases hfail
    · refine ⟨msg, hc, by simp [startup, hc], ?_⟩
      intro o st kvs hne
      exact credential_fail_processLine settings env o st kvs msg hc hne

/-- C9 (witness): both startup outcomes at concrete environments. -/
theorem C9_witness :
    startup settingsOpenAI envFull = (true, [OutLine.statusSuccess]) ∧
    (∃ msg, startup settingsOpenAI envNone
        = (false, [module_error msg, OutLine.statusSuccess])) :=
  ⟨(C9_amended settingsOpenAI envFull).2.1 rfl,
   ((C9_amended settingsOpenAI envNone).2.2 rfl).elim fun msg h => ⟨msg, h.2.1⟩⟩

/-- C10 (confirmed): with valid credentials, CLEAR_CONVERSATION empties the
memory of the with-documents and without-documents wrappers, emits exactly the
DID_CLEAR_CONVERSATION response, and modifies nothing else: the single-query
wrapper, the cost accumulator and the document store are untouched and no
model request is made. -/
theorem C10_confirmed (settings : Settings) (env : Env) (o : Oracle) (st : ModuleState)
    (hok : (check_credentials settings env).1 = true) :
    processLine settings env o st clearLine
      = ({ st with withDocumentsAI := { st.withDocumentsAI with memory := [] },
                   withoutDocumentsAI := { st.withoutDocumentsAI with memory := [] } },
         [module_return st.total_cost .DID_CLEAR_CONVERSATION []], []) ∧
    (processLine settings env o st clearLine).1.withoutDocumentsSingleQuery
      = st.withoutDocumentsSingleQuery ∧
    (processLine settings env o st clearLine).1.total_cost = st.total_cost ∧
    (processLine settings env o st clearLine).1.withDocumentsAI.documents
      = st.withDocumentsAI.documents := by
  obtain ⟨errs, hc⟩ : ∃ errs, check_credentials settings env = (true, errs) := by
    rcases check_credentials_shape settings env with hc | ⟨msg, hc⟩
    · exact ⟨[], hc⟩
    · rw [hc] at hok; cases hok
  have h1 : processLine settings env o st clearLine
      = ({ st with withDocumentsAI := { st.withDocumentsAI with memory := [] },
                   withoutDocumentsAI := { st.withoutDocumentsAI with memory := [] } },
         [module_return st.total_cost .DID_CLEAR_CONVERSATION []], []) := by
    simp [processLine, clearLine, handle_module_input, hc, jlookup, IC.ofName?,
      ChatAIWithDocuments.clear_memory, ChatAIWithoutDocuments.clear_memory]
  exact ⟨h1, by rw [h1], by rw [h1], by rw [h1]⟩

/-- C10 (witness): the CLEAR_CONVERSATION frame property at a concrete
state. -/
theorem C10_witness :
    processLine settingsOpenAI envFull zeroOracle st0 clearLine
      = ({ st0 with
            withDocumentsAI := { st0.withDocumentsAI with memory := [] },
            withoutDocumentsAI := { st0.withoutDocumentsAI with memory := [] } },
         [module_return st0.total_cost .DID_CLEAR_CONVERSATION []], []) ∧
    (processLine settingsOpenAI envFull zeroOracle st0 clearLine).1.withoutDocumentsSingleQuery
      = st0.withoutDocumentsSingleQuery :=
  ⟨(C10_confirmed settingsOpenAI envFull zeroOracle st0 rfl).1,
   (C10_confirmed settingsOpenAI envFull zeroOracle st0 rfl).2.1⟩

/-- C3 (counterexample): the SUBMODULE_ERROR response emitted for an invalid
JSON line carries no `total_cost` field, contradicting the claim that every
emitted response envelope (including SUBMODULE_ERROR) carries one. -/
theorem C3_counterexample :
    (processLine settingsOpenAI envFull zeroOracle st0 (.invalid "oops")).2.1
      = [module_error "Invalid JSON input: oops"] ∧
    (module_error "Invalid JSON input: oops").isErrorResponse = true ∧
    (module_error "Invalid JSON input: oops").totalCost? = none :=
  ⟨rfl, rfl, rfl⟩

/-- C3 (amended): responses emitted by `module_return` always carry a
`total_cost` field while SUBMODULE_ERROR responses never do; assuming
non-negative per-call billed costs, the accumulator (initialized at loop entry
and never reset) is non-decreasing over the run and the `total_cost` values
attached to the responses are non-decreasing in emission order. -/
theorem C3_amended (settings : Settings) (env : Env) (o : Oracle) (st : ModuleState)
    (lines : List RawLine) (h : o.costsNonneg) :
    st.total_cost ≤ (runLines settings env o st lines).1.total_cost ∧
    List.Chain' (· ≤ ·)
      (st.total_cost :: costValues (runLines settings env o st lines).2.1) ∧
    (∀ out ∈ (runLines settings env o st lines).2.1,
        out.isErrorResponse = true → out.totalCost? = none) ∧
    (∀ out ∈ (runLines settings env o st lines).2.1,
        out.isSuccessResponse = true → (out.totalCost?).isSome = true) := by
  obtain ⟨a, b, -, d, e⟩ := runLines_spec settings env o h lines st
  exact ⟨a, b, d, e⟩

/-- C3 (witness): the cost bookkeeping over a concrete two-line run. -/
theorem C3_witness :
    st0.total_cost
      ≤ (runLines settingsOpenAI envFull zeroOracle st0
          [askLine "a", .invalid "x"]).1.total_cost ∧
    List.Chain' (· ≤ ·)
      (st0.total_cost :: costValues (runLines settingsOpenAI envFull zeroOracle st0
          [askLine "a", .invalid "x"]).2.1) ∧
    (∀ out ∈ (runLines settingsOpenAI envFull zeroOracle st0
          [askLine "a", .invalid "x"]).2.1,
        out.isErrorResponse = true → out.totalCost? = none) ∧
    (∀ out ∈ (runLines settingsOpenAI envFull zeroOracle st0
          [askLine "a", .invalid "x"]).2.1,
        out.isSuccessResponse = true → (out.totalCost?).isSome = true) :=
  C3_amended settingsOpenAI envFull zeroOracle st0 [askLine "a", .invalid "x"]
    ⟨fun _ _ => le_refl 0, fun _ _ _ => le_refl 0, fun _ _ => le_refl 0,
     fun _ => le_refl 0, fun _ => le_refl 0⟩

end AnkiBrain
